import Mathlib

/-!
Verification of `setup.py` of qiao-925/gh-repos-batch-clone.

The script does two things: it computes `long_description` by reading
`README.md` (falling back to a literal string when the file is missing,
lines 14-18), and it calls `setup(...)` with a fixed set of keyword
arguments (lines 20-51).  We embed the packaging run as a pure function
of the filesystem state it observes: the outcome of the `README.md` read
and the directory layout scanned by `find_packages()`.
-/

namespace ReposSetup

/-- Outcome of `open("README.md", "r", encoding="utf-8")` followed by
`fh.read()` (setup.py lines 15-16): the file is present and decodes as
UTF-8, the open raises `FileNotFoundError`, or some other exception is
raised (permission error, `UnicodeDecodeError`, ...), carried as a
message. -/
inductive ReadResult where
  | ok (contents : String)
  | fileNotFound
  | otherError (msg : String)
deriving DecidableEq

/-- The literal fallback assigned on `FileNotFoundError` (setup.py line 18). -/
def fallbackDescription : String := "GitHub 仓库批量分类克隆脚本"

/-- The `try`/`except FileNotFoundError` block of setup.py lines 14-18:
on a successful read the description is the file's contents, on
`FileNotFoundError` it is the fallback literal, and any other exception
propagates (the `except` clause names only `FileNotFoundError`). -/
def computeLongDescription : ReadResult → Except String String
  | .ok c => .ok c
  | .fileNotFound => .ok fallbackDescription
  | .otherError e => .error e

/-- A directory entry under the project root as seen by `find_packages()`:
its name and whether it contains an `__init__.py` marker. -/
structure DirEntry where
  name : String
  hasInitPy : Bool
deriving DecidableEq

/-- The filesystem state a packaging run observes: the result of the
`README.md` read and the directory entries under the project root. -/
structure FileSystem where
  readme : ReadResult
  dirs : List DirEntry
deriving DecidableEq

/-- `setuptools.find_packages()` (setup.py line 29): scans the project
root and returns the directories that are importable packages, i.e.
those containing `__init__.py`. -/
def find_packages (fs : FileSystem) : List String :=
  (fs.dirs.filter (·.hasInitPy)).map (·.name)

/-- The keyword arguments of the `setup(...)` call (setup.py lines 20-51). -/
structure SetupArgs where
  name : String
  version : String
  author : String
  description : String
  long_description : String
  long_description_content_type : String
  url : String
  py_modules : List String
  packages : List String
  python_requires : String
  install_requires : List String
  entry_points : List (String × List String)
  classifiers : List String
deriving DecidableEq

/-- The argument record built at setup.py lines 20-51, given the computed
long description and the result of `find_packages()`; every other
argument is a literal in the source. -/
def mkSetupArgs (ld : String) (pkgs : List String) : SetupArgs where
  name := "github-repos-clone"
  version := "1.0.0"
  author := "qiao-925"
  description := "GitHub 仓库批量分类克隆脚本"
  long_description := ld
  long_description_content_type := "text/markdown"
  url := "https://github.com/qiao-925/github-repos-batch-sync-script"
  py_modules := ["main"]
  packages := pkgs
  python_requires := ">=3.7"
  install_requires := ["colorama>=0.4.6"]
  entry_points := [("console_scripts", ["repos=main:main"])]
  classifiers :=
    [ "Development Status :: 4 - Beta"
    , "Intended Audience :: Developers"
    , "Topic :: Software Development :: Version Control :: Git"
    , "Programming Language :: Python :: 3"
    , "Programming Language :: Python :: 3.7"
    , "Programming Language :: Python :: 3.8"
    , "Programming Language :: Python :: 3.9"
    , "Programming Language :: Python :: 3.10"
    , "Programming Language :: Python :: 3.11"
    , "Programming Language :: Python :: 3.12" ]

/-- One packaging run of setup.py: compute the long description from the
`README.md` read (an unhandled exception aborts the run), then assemble
the `setup(...)` arguments. -/
def runSetup (fs : FileSystem) : Except String SetupArgs :=
  match computeLongDescription fs.readme with
  | .ok ld => .ok (mkSetupArgs ld (find_packages fs))
  | .error e => .error e

/-- Split a character list at every occurrence of the separator, keeping
empty segments, as string splitting does. -/
def splitOnChar (c : Char) : List Char → List (List Char)
  | [] => [[]]
  | x :: xs =>
    if x = c then [] :: splitOnChar c xs
    else
      match splitOnChar c xs with
      | [] => [[x]]
      | y :: ys => (x :: y) :: ys

/-- Parse a setuptools console-script specification of the form
`name=module:attr` into its name, module and callable. -/
def parseEntryPoint (s : String) : Option (String × String × String) :=
  match (splitOnChar '=' s.data).map String.mk with
  | [n, rest] =>
    match (splitOnChar ':' rest.data).map String.mk with
    | [m, a] => some (n, m, a)
    | _ => none
  | _ => none

/-- The `setup(...)` arguments with the `packages` field blanked, used to
express which arguments are independent of the directory scan. -/
def argsExceptPackages (a : SetupArgs) : SetupArgs :=
  { a with packages := [] }

/-- A successful packaging run always yields the argument record built by
`mkSetupArgs` from some long description and the scan of the run's own
directory layout. -/
theorem runSetup_ok_shape (fs : FileSystem) (a : SetupArgs)
    (h : runSetup fs = .ok a) : ∃ ld, a = mkSetupArgs ld (find_packages fs) := by
  unfold runSetup at h
  cases hc : computeLongDescription fs.readme <;> rw [hc] at h
  · exact absurd h (by simp)
  · exact ⟨_, by injection h with h; exact h.symm⟩

/-- C1: for every packaging run in which README.md is present and readable
as UTF-8 text, the long_description passed to setup equals exactly the
contents of that file. -/
theorem longDescription_equals_readme_contents (fs : FileSystem) (c : String)
    (h : fs.readme = .ok c) :
    ∃ a, runSetup fs = .ok a ∧ a.long_description = c := by
  refine ⟨mkSetupArgs c (find_packages fs), ?_, rfl⟩
  unfold runSetup
  rw [h]
  rfl

/-- Witness for C1 at a concrete filesystem holding a README. -/
theorem longDescription_equals_readme_contents_witness :
    (FileSystem.mk (.ok "sample readme") []).readme = .ok "sample readme" ∧
      ∃ a, runSetup (FileSystem.mk (.ok "sample readme") []) = .ok a ∧
        a.long_description = "sample readme" :=
  ⟨rfl, longDescription_equals_readme_contents _ _ rfl⟩

/-- C2: for every packaging run in which README.md is absent, packaging
does not fail and the long_description equals the literal fallback string. -/
theorem longDescription_fallback_when_absent (fs : FileSystem)
    (h : fs.readme = .fileNotFound) :
    ∃ a, runSetup fs = .ok a ∧
      a.long_description = "GitHub 仓库批量分类克隆脚本" := by
  refine ⟨mkSetupArgs fallbackDescription (find_packages fs), ?_, rfl⟩
  unfold runSetup
  rw [h]
  rfl

/-- Witness for C2 at a concrete filesystem with no README. -/
theorem longDescription_fallback_when_absent_witness :
    (FileSystem.mk .fileNotFound []).readme = .fileNotFound ∧
      ∃ a, runSetup (FileSystem.mk .fileNotFound []) = .ok a ∧
        a.long_description = "GitHub 仓库批量分类克隆脚本" :=
  ⟨rfl, longDescription_fallback_when_absent _ rfl⟩

/-- C3: whether README.md is present and readable or absent, the
description computation terminates with a string and packaging succeeds. -/
theorem packaging_succeeds_present_or_absent (fs : FileSystem)
    (h : (∃ c, fs.readme = .ok c) ∨ fs.readme = .fileNotFound) :
    ∃ a, runSetup fs = .ok a := by
  rcases h with ⟨c, hc⟩ | hn
  · exact ⟨mkSetupArgs c (find_packages fs), by unfold runSetup; rw [hc]; rfl⟩
  · exact ⟨mkSetupArgs fallbackDescription (find_packages fs), by
      unfold runSetup; rw [hn]; rfl⟩

/-- Witness for C3 at a concrete filesystem with no README. -/
theorem packaging_succeeds_present_or_absent_witness :
    ((∃ c, (FileSystem.mk .fileNotFound []).readme = .ok c) ∨
        (FileSystem.mk .fileNotFound []).readme = .fileNotFound) ∧
      ∃ a, runSetup (FileSystem.mk .fileNotFound []) = .ok a :=
  ⟨Or.inr rfl, packaging_succeeds_present_or_absent _ (Or.inr rfl)⟩

/-- C4: every successful packaging run registers exactly one console
entry point, whose specification names the script `repos` and dispatches
to the callable `main` of the module `main`. -/
theorem single_repos_console_entry_point (fs : FileSystem) (a : SetupArgs)
    (h : runSetup fs = .ok a) :
    a.entry_points = [("console_scripts", ["repos=main:main"])] ∧
      parseEntryPoint "repos=main:main" = some ("repos", "main", "main") := by
  obtain ⟨ld, rfl⟩ := runSetup_ok_shape fs a h
  exact ⟨rfl, by decide⟩

/-- Witness for C4 at a concrete filesystem with no README. -/
theorem single_repos_console_entry_point_witness :
    runSetup (FileSystem.mk .fileNotFound []) =
        .ok (mkSetupArgs fallbackDescription []) ∧
      (mkSetupArgs fallbackDescription []).entry_points =
          [("console_scripts", ["repos=main:main"])] ∧
        parseEntryPoint "repos=main:main" = some ("repos", "main", "main") :=
  ⟨rfl, single_repos_console_entry_point (FileSystem.mk .fileNotFound []) _ rfl⟩

/-- C5 counterexample: two packaging runs whose filesystems agree on
README.md (both absent) but whose directory layouts differ produce
different setup arguments, because `find_packages()` scans the directory
tree; the arguments are not a function of README.md alone and the run
reads the filesystem beyond README.md. -/
theorem setupArgs_depend_on_directory_scan :
    (FileSystem.mk .fileNotFound []).readme =
        (FileSystem.mk .fileNotFound [DirEntry.mk "pkg" true]).readme ∧
      runSetup (FileSystem.mk .fileNotFound []) ≠
        runSetup (FileSystem.mk .fileNotFound [DirEntry.mk "pkg" true]) := by
  refine ⟨rfl, fun h => ?_⟩
  have hp := congrArg (Except.map SetupArgs.packages) h
  simp [runSetup, computeLongDescription, find_packages, mkSetupArgs,
    Except.map] at hp

/-- C5 amended: the setup arguments are a deterministic function of the
README.md read outcome together with the directory layout scanned by
`find_packages()`; moreover every argument except `packages` is already
determined by the README.md read outcome alone. -/
theorem setupArgs_determined_by_readme_and_dirs (f g : FileSystem)
    (h : f.readme = g.readme) :
    (runSetup f).map argsExceptPackages = (runSetup g).map argsExceptPackages ∧
      (f.dirs = g.dirs → runSetup f = runSetup g) := by
  obtain ⟨r1, d1⟩ := f
  obtain ⟨r2, d2⟩ := g
  have hr : r1 = r2 := h
  subst hr
  constructor
  · unfold runSetup
    cases hc : computeLongDescription (FileSystem.mk r1 d1).readme <;> rfl
  · intro hd
    have hd2 : d1 = d2 := hd
    subst hd2
    rfl

/-- Witness for C5's amended claim at two concrete filesystems that agree
on README.md and on the directory layout. -/
theorem setupArgs_determined_by_readme_and_dirs_witness :
    (FileSystem.mk (.ok "r") [DirEntry.mk "pkg" true]).readme =
        (FileSystem.mk (.ok "r") [DirEntry.mk "pkg" true]).readme ∧
      ((runSetup (FileSystem.mk (.ok "r") [DirEntry.mk "pkg" true])).map
            argsExceptPackages =
          (runSetup (FileSystem.mk (.ok "r") [DirEntry.mk "pkg" true])).map
            argsExceptPackages ∧
        ((FileSystem.mk (.ok "r") [DirEntry.mk "pkg" true]).dirs =
            (FileSystem.mk (.ok "r") [DirEntry.mk "pkg" true]).dirs →
          runSetup (FileSystem.mk (.ok "r") [DirEntry.mk "pkg" true]) =
            runSetup (FileSystem.mk (.ok "r") [DirEntry.mk "pkg" true]))) :=
  ⟨rfl, setupArgs_determined_by_readme_and_dirs _ _ rfl⟩

/-- C6: every successful packaging run passes python_requires equal to
the string ">=3.7", declaring Python 3.7 or newer as the minimum runtime. -/
theorem python_requires_is_3_7 (fs : FileSystem) (a : SetupArgs)
    (h : runSetup fs = .ok a) : a.python_requires = ">=3.7" := by
  obtain ⟨ld, rfl⟩ := runSetup_ok_shape fs a h
  rfl

/-- Witness for C6 at a concrete filesystem with no README. -/
theorem python_requires_is_3_7_witness :
    runSetup (FileSystem.mk .fileNotFound []) =
        .ok (mkSetupArgs fallbackDescription []) ∧
      (mkSetupArgs fallbackDescription []).python_requires = ">=3.7" :=
  ⟨rfl, python_requires_is_3_7 (FileSystem.mk .fileNotFound []) _ rfl⟩

/-- C7: every successful packaging run passes install_requires equal to
the single-element list of the terminal-coloring dependency. -/
theorem install_requires_is_colorama (fs : FileSystem) (a : SetupArgs)
    (h : runSetup fs = .ok a) : a.install_requires = ["colorama>=0.4.6"] := by
  obtain ⟨ld, rfl⟩ := runSetup_ok_shape fs a h
  rfl

/-- Witness for C7 at a concrete filesystem with no README. -/
theorem install_requires_is_colorama_witness :
    runSetup (FileSystem.mk .fileNotFound []) =
        .ok (mkSetupArgs fallbackDescription []) ∧
      (mkSetupArgs fallbackDescription []).install_requires =
        ["colorama>=0.4.6"] :=
  ⟨rfl, install_requires_is_colorama (FileSystem.mk .fileNotFound []) _ rfl⟩

/-- C8: only FileNotFoundError is handled: when the README.md read raises
any other error, that error propagates and the packaging run fails
instead of using the fallback string. -/
theorem other_read_errors_propagate (fs : FileSystem) (e : String)
    (h : fs.readme = .otherError e) :
    computeLongDescription fs.readme = .error e ∧ runSetup fs = .error e := by
  refine ⟨by rw [h]; rfl, ?_⟩
  unfold runSetup
  rw [h]
  rfl

/-- Witness for C8 at a concrete filesystem whose README read raises a
permission error. -/
theorem other_read_errors_propagate_witness :
    (FileSystem.mk (.otherError "PermissionError") []).readme =
        .otherError "PermissionError" ∧
      computeLongDescription
          (FileSystem.mk (.otherError "PermissionError") []).readme =
        .error "PermissionError" ∧
      runSetup (FileSystem.mk (.otherError "PermissionError") []) =
        .error "PermissionError" :=
  ⟨rfl, other_read_errors_propagate _ _ rfl⟩

/-- C9: when README.md is absent, the long_description and description
arguments passed to setup are equal, both the literal fallback string. -/
theorem description_args_agree_when_absent (fs : FileSystem)
    (h : fs.readme = .fileNotFound) :
    ∃ a, runSetup fs = .ok a ∧ a.long_description = a.description ∧
      a.description = "GitHub 仓库批量分类克隆脚本" := by
  refine ⟨mkSetupArgs fallbackDescription (find_packages fs), ?_, rfl, rfl⟩
  unfold runSetup
  rw [h]
  rfl

/-- Witness for C9 at a concrete filesystem with no README. -/
theorem description_args_agree_when_absent_witness :
    (FileSystem.mk .fileNotFound []).readme = .fileNotFound ∧
      ∃ a, runSetup (FileSystem.mk .fileNotFound []) = .ok a ∧
        a.long_description = a.description ∧
          a.description = "GitHub 仓库批量分类克隆脚本" :=
  ⟨rfl, description_args_agree_when_absent _ rfl⟩

/-- C10: every successful packaging run, whether README.md was present or
absent, passes long_description_content_type equal to "text/markdown". -/
theorem content_type_always_markdown (fs : FileSystem) (a : SetupArgs)
    (h : runSetup fs = .ok a) :
    a.long_description_content_type = "text/markdown" := by
  obtain ⟨ld, rfl⟩ := runSetup_ok_shape fs a h
  rfl

/-- Witness for C10 at a concrete filesystem with no README, where the
long description is the plain fallback string. -/
theorem content_type_always_markdown_witness :
    runSetup (FileSystem.mk .fileNotFound []) =
        .ok (mkSetupArgs fallbackDescription []) ∧
      (mkSetupArgs fallbackDescription []).long_description_content_type =
        "text/markdown" :=
  ⟨rfl, content_type_always_markdown (FileSystem.mk .fileNotFound []) _ rfl⟩

end ReposSetup
